import Mathlib

/-!
Shallow embedding of the session transaction contract of backend.go
(package smtp): the sentinel error values, the MailOptions record, and the
documented contracts of the Session, LMTPSession and StatusCollector
interfaces. Interface behavior that backend.go only documents is modelled
explicitly and each such definition says where its contract comes from.
-/

namespace GoSmtp

/-- Modelled from the spec: SMTPError is referenced by backend.go but defined
outside the given sources (smtp.go); per the status and reply code model of
the spec (section 6) it carries a three digit reply code, a three part
enhanced status code and a human readable message. -/
structure SMTPError where
  Code : Nat
  EnhancedCode : Nat × Nat × Nat
  Message : String
  deriving DecidableEq, Repr

/-- ErrAuthRequired from backend.go lines 10 to 14. -/
def ErrAuthRequired : SMTPError :=
  { Code := 502, EnhancedCode := (5, 7, 0), Message := "Please authenticate first" }

/-- ErrAuthUnsupported from backend.go lines 15 to 19. -/
def ErrAuthUnsupported : SMTPError :=
  { Code := 502, EnhancedCode := (5, 7, 0), Message := "Authentication not supported" }

/-- BodyType from backend.go line 27: a string type. -/
abbrev BodyType := String

/-- Body7Bit from backend.go line 30. -/
def Body7Bit : BodyType := "7BIT"

/-- Body8BitMIME from backend.go line 31. -/
def Body8BitMIME : BodyType := "8BITMIME"

/-- BodyBinaryMIME from backend.go line 32. -/
def BodyBinaryMIME : BodyType := "BINARYMIME"

/-- MailOptions from backend.go lines 37 to 62. The Go field Size has the
signed type int, embedded as Int. The Go field Auth has type pointer to
string, embedded as Option String: none is the nil pointer (missing AUTH),
some of the empty string is AUTH with an empty identity. -/
structure MailOptions where
  Body : BodyType
  Size : Int
  RequireTLS : Bool
  UTF8 : Bool
  Auth : Option String
  deriving DecidableEq, Repr

/-- The Go zero value of MailOptions. -/
def mailOptionsZero : MailOptions :=
  { Body := "", Size := 0, RequireTLS := false, UTF8 := false, Auth := none }

/-- MailOptions asserting the explicit empty authorization identity
(a non nil pointer to the empty string, AUTH with empty brackets). -/
def authEmptyOpts : MailOptions :=
  { Body := "", Size := 0, RequireTLS := false, UTF8 := false, Auth := some "" }

/-- A MailOptions value whose Size field is negative; such a value is
representable because the Go field has the signed type int. -/
def negSizeOpts : MailOptions :=
  { Body := Body7Bit, Size := -1, RequireTLS := false, UTF8 := false, Auth := none }

/-- Per the comment on MailOptions.Size (backend.go lines 41 to 42): the size
can be 0 when not specified by the client, so the size counts as declared
exactly when the field is not zero. -/
def sizeDeclared (o : MailOptions) : Bool := o.Size != 0

/-- Modelled from the spec: Go error values as returned by Session methods
and passed to StatusCollector.SetStatus — either a protocol coded SMTPError
or a plain message error; a Go nil error is Option.none at every use site. -/
inductive GoError where
  | smtp (e : SMTPError)
  | errorString (s : String)
  deriving DecidableEq, Repr

/-- Modelled from the spec: the Session interface (backend.go lines 67 to 88)
declares operations without code; this is the conceptual transaction state of
spec section 3 — the sender with the options pointer passed to Mail, the
recipient entries in call order (duplicates kept as distinct entries), and
any partially received body. -/
structure SessionState where
  sender : Option String
  mailOpts : Option (Option MailOptions)
  recipients : List String
  body : Option String
  deriving DecidableEq, Repr

/-- The state of a session with no transaction in progress. -/
def initialState : SessionState :=
  { sender := none, mailOpts := none, recipients := [], body := none }

/-- Modelled from the spec: Session.Reset (backend.go line 69, discard the
currently processed message) discards all in progress transaction state
unconditionally; it is a total function, so it never fails. -/
def sessionReset (_s : SessionState) : SessionState := initialState

/-- Modelled from the spec: Session.Mail (backend.go line 81) begins a
transaction by recording the return path and the options pointer; per spec
section 4.2 it must fail with the ErrAuthRequired sentinel when
authentication is mandatory and has not happened. -/
def sessionMail (authMandatory authenticated : Bool) (s : SessionState)
    (sender : String) (opts : Option MailOptions) : Except GoError SessionState :=
  if authMandatory && !authenticated then
    Except.error (GoError.smtp ErrAuthRequired)
  else
    Except.ok { s with sender := some sender, mailOpts := some opts }

/-- Modelled from the spec: Session.Rcpt (backend.go line 83) adds a
recipient entry; duplicate addresses are tracked as distinct entries
(backend.go lines 99 to 101 and spec section 4.2). -/
def sessionRcpt (s : SessionState) (rcptTo : String) : SessionState :=
  { s with recipients := s.recipients ++ [rcptTo] }

/-- The SetStatus calls a compliant LMTPData implementation makes, per the
contract on backend.go lines 98 to 102: SetStatus is called once per each
AddRcpt call, even when AddRcpt was called multiple times with the same
argument. The implementation is abstracted by the function explicit, giving
for an address the explicit status it sets, or none for recipients it leaves
to the fallback of backend.go lines 104 to 105. -/
def lmtpStatusCalls (recipients : List String)
    (explicit : String → Option (Option GoError)) : List (String × Option GoError) :=
  match recipients with
  | [] => []
  | r :: rs =>
    match explicit r with
    | none => lmtpStatusCalls rs explicit
    | some e => (r, e) :: lmtpStatusCalls rs explicit

/-- The outcome of a recipient per backend.go lines 104 to 105: the explicit
status when one was set through the StatusCollector, otherwise the return
value of LMTPData itself. -/
def recipientOutcome (explicit : String → Option (Option GoError))
    (ret : Option GoError) (r : String) : Option GoError :=
  (explicit r).getD ret

/-- The scenario implementation of spec section 8: the address bob gets the
explicit status of a mailbox full error, every other address gets no
explicit status. -/
def scenarioExplicit : String → Option (Option GoError) := fun r =>
  if r = "bob" then some (some (GoError.errorString "mailbox full")) else none

/-- Events observable at the StatusCollector boundary during one LMTPData
call: a SetStatus invocation, or the return of LMTPData itself. -/
inductive LMTPEvent where
  | setStatus (rcptTo : String) (err : Option GoError)
  | returned (ret : Option GoError)
  deriving DecidableEq, Repr

/-- The event trace of one compliant LMTPData call: its SetStatus calls in
order, then its return — per backend.go lines 101 to 102 SetStatus must not
be called after LMTPData returns, so the return closes the trace. -/
def lmtpTrace (recipients : List String)
    (explicit : String → Option (Option GoError)) (ret : Option GoError) :
    List LMTPEvent :=
  (lmtpStatusCalls recipients explicit).map (fun c => LMTPEvent.setStatus c.1 c.2)
    ++ [LMTPEvent.returned ret]

/-- Modelled from the spec: the byte stream abstraction of spec section 6 — a
sequential read once source of bytes with a current read position. -/
structure BodyStream where
  data : List Nat
  pos : Nat
  deriving DecidableEq, Repr

/-- The bytes of the stream not yet consumed. -/
def streamRemaining (r : BodyStream) : Nat := r.data.length - r.pos

/-- Modelled from the spec: the stream handling both Session.Data
(backend.go line 86: r must be consumed before Data returns) and
LMTPSession.LMTPData (which per spec section 4.3 consumes its stream
identically) must perform. On success the position is at the end of the data
when the call returns; a read failure after failAt further bytes stops
consumption early but never past the end. The returned stream state is
final: the call performs no read after it returns. -/
def consumeBody (r : BodyStream) (failAt : Option Nat) :
    Option GoError × BodyStream :=
  match failAt with
  | none => (none, { r with pos := r.data.length })
  | some k =>
    (some (GoError.errorString "body read failed"),
      { r with pos := min (r.pos + k) r.data.length })

/-- A session state holding leftover transaction state from earlier
commands, used to exercise Reset. -/
def dirtyState : SessionState :=
  { sender := some "old", mailOpts := some none,
    recipients := ["x", "x"], body := some "partial body" }

/-- The session state a successful Mail for alice with the zero options
pointer produces from a clean state. -/
def cleanAfterMail : SessionState :=
  { sender := some "alice", mailOpts := some (some mailOptionsZero),
    recipients := [], body := none }

/-- C2: the sentinels ErrAuthRequired and ErrAuthUnsupported each carry reply
code 502 and enhanced status code 5.7.0; each is a single shared value, so
any two references to the same sentinel are equal, and the two sentinels are
distinguished by value, not by parsing message text. -/
theorem sentinelErrorsStable :
    ErrAuthRequired.Code = 502 ∧ ErrAuthRequired.EnhancedCode = (5, 7, 0) ∧
    ErrAuthUnsupported.Code = 502 ∧ ErrAuthUnsupported.EnhancedCode = (5, 7, 0) ∧
    ErrAuthRequired = ErrAuthRequired ∧ ErrAuthUnsupported = ErrAuthUnsupported ∧
    ErrAuthRequired ≠ ErrAuthUnsupported := by
  refine ⟨rfl, rfl, rfl, rfl, rfl, rfl, ?_⟩
  intro h
  have hm : ErrAuthRequired.Message = ErrAuthUnsupported.Message := by rw [h]
  simp [ErrAuthRequired, ErrAuthUnsupported] at hm

/-- C4: when authentication is mandatory and has not happened, Session.Mail
fails, and the error is exactly the ErrAuthRequired sentinel, which carries
code 502 and enhanced status 5.7.0. -/
theorem mailWithoutAuthFailsWithSentinel (authMandatory authenticated : Bool)
    (s : SessionState) (sender : String) (opts : Option MailOptions)
    (hm : authMandatory = true) (ha : authenticated = false) :
    sessionMail authMandatory authenticated s sender opts
      = Except.error (GoError.smtp ErrAuthRequired) ∧
    ErrAuthRequired.Code = 502 ∧ ErrAuthRequired.EnhancedCode = (5, 7, 0) := by
  subst hm; subst ha
  exact ⟨rfl, rfl, rfl⟩

/-- Witness for C4 at a concrete state: Mail called by alice without prior
authentication while authentication is mandatory returns the sentinel. -/
theorem mailWithoutAuthFailsWithSentinel_witness :
    sessionMail true false initialState "alice" none
      = Except.error (GoError.smtp ErrAuthRequired) ∧
    ErrAuthRequired.Code = 502 ∧ ErrAuthRequired.EnhancedCode = (5, 7, 0) :=
  mailWithoutAuthFailsWithSentinel true false initialState "alice" none rfl rfl

/-- C5: Session.Reset is total and idempotent — at any state it discards the
sender, the recipients and any partial body, a second reset changes nothing,
and a Mail that succeeds right after a reset begins a transaction with no
residual recipients from before the reset. -/
theorem resetIdempotentDiscardsAll (s t : SessionState)
    (authMandatory authenticated : Bool) (sender : String)
    (opts : Option MailOptions)
    (h : sessionMail authMandatory authenticated (sessionReset s) sender opts
      = Except.ok t) :
    sessionReset (sessionReset s) = sessionReset s ∧
    (sessionReset s).sender = none ∧ (sessionReset s).recipients = [] ∧
    (sessionReset s).body = none ∧ t.recipients = [] := by
  refine ⟨rfl, rfl, rfl, rfl, ?_⟩
  unfold sessionMail at h
  split at h
  · exact Except.noConfusion h
  · injection h with h
    subst h
    rfl

/-- Witness for C5 at a concrete dirty state: resetting twice equals
resetting once, the reset state is clean, and the state after a subsequent
Mail has no residual recipients. -/
theorem resetIdempotentDiscardsAll_witness :
    sessionReset (sessionReset dirtyState) = sessionReset dirtyState ∧
    (sessionReset dirtyState).sender = none ∧
    (sessionReset dirtyState).recipients = [] ∧
    (sessionReset dirtyState).body = none ∧
    cleanAfterMail.recipients = [] :=
  resetIdempotentDiscardsAll dirtyState cleanAfterMail false false "alice"
    (some mailOptionsZero) rfl

/-- C6: an absent asserted identity (nil Auth pointer) and a present but
empty one (non nil pointer to the empty string) are distinct MailOptions
states, and the transaction operations store and carry the options pointer
unchanged, so the two states stay observably distinct for the lifetime of
the transaction. -/
theorem assertedIdentityStatesDistinct (o1 o2 : MailOptions)
    (h1 : o1.Auth = none) (h2 : o2.Auth = some "")
    (authMandatory authenticated : Bool) (s : SessionState)
    (sender r : String) :
    o1.Auth ≠ o2.Auth ∧
    ∀ t, sessionMail authMandatory authenticated s sender (some o2)
        = Except.ok t →
      t.mailOpts = some (some o2) ∧ (sessionRcpt t r).mailOpts = t.mailOpts := by
  constructor
  · rw [h1, h2]
    exact fun h => Option.noConfusion h
  · intro t ht
    unfold sessionMail at ht
    split at ht
    · exact Except.noConfusion ht
    · injection ht with ht
      subst ht
      exact ⟨rfl, rfl⟩

/-- Witness for C6 at concrete values: the zero options (absent identity)
differ from the empty identity options, and Mail followed by Rcpt carries
the empty identity options unchanged. -/
theorem assertedIdentityStatesDistinct_witness :
    mailOptionsZero.Auth ≠ authEmptyOpts.Auth ∧
    ∀ t, sessionMail false false initialState "alice" (some authEmptyOpts)
        = Except.ok t →
      t.mailOpts = some (some authEmptyOpts) ∧
      (sessionRcpt t "bob").mailOpts = t.mailOpts :=
  assertedIdentityStatesDistinct mailOptionsZero authEmptyOpts rfl rfl
    false false initialState "alice" "bob"

/-- C1 (counterexample): with AddRcpt called twice for bob, a compliant
LMTPData issues two status reports for bob through the sink — not exactly
one per distinct address as the claim states. -/
theorem statusPerDistinctAddressCounterexample :
    ((lmtpStatusCalls ["bob", "bob"] fun _ => some none).map Prod.fst).count "bob" = 2 ∧
    ¬ ((lmtpStatusCalls ["bob", "bob"] fun _ => some none).map Prod.fst).count "bob" = 1 := by
  refine ⟨rfl, ?_⟩
  intro h
  rw [show ((lmtpStatusCalls ["bob", "bob"] fun _ => some none).map Prod.fst).count "bob" = 2 from rfl] at h
  exact absurd h (by decide)

/-- C1 (amended): a compliant LMTPData issues exactly one status report per
AddRcpt call — an address added n times receives n reports through the
sink (here for an address the implementation reports explicitly), not one
report per distinct address. -/
theorem statusReportsPerRcptCall (recipients : List String)
    (explicit : String → Option (Option GoError)) (a : String)
    (h : (explicit a).isSome = true) :
    ((lmtpStatusCalls recipients explicit).map Prod.fst).count a
      = recipients.count a := by
  induction recipients with
  | nil => rfl
  | cons r rs ih =>
    cases he : explicit r with
    | none =>
      have hra : (r == a) = false := by
        rcases eq_or_ne r a with h1 | h1
        · subst h1
          rw [he] at h
          exact absurd h (by simp)
        · exact beq_eq_false_iff_ne.mpr h1
      simp [lmtpStatusCalls, he, List.count_cons, hra, ih]
    | some e =>
      simp only [lmtpStatusCalls, he, List.map_cons, List.count_cons, ih]

/-- Witness for C1 (amended) at a concrete input: bob added twice and carol
once yields two reports for bob, matching the number of AddRcpt calls. -/
theorem statusReportsPerRcptCall_witness :
    ((lmtpStatusCalls ["bob", "bob", "carol"] fun _ => some none).map Prod.fst).count "bob"
      = (["bob", "bob", "carol"] : List String).count "bob" :=
  statusReportsPerRcptCall ["bob", "bob", "carol"] (fun _ => some none) "bob" rfl

/-- C3: a recipient for which LMTPData set no explicit status through the
sink receives the return value of LMTPData as its outcome (nil meaning
accepted), while a recipient with an explicit status keeps that status. -/
theorem fallbackOutcome (explicit : String → Option (Option GoError))
    (ret : Option GoError) (rNone rSet : String) (e : Option GoError)
    (hn : explicit rNone = none) (hs : explicit rSet = some e) :
    recipientOutcome explicit ret rNone = ret ∧
    recipientOutcome explicit ret rSet = e := by
  unfold recipientOutcome
  rw [hn, hs]
  exact ⟨rfl, rfl⟩

/-- Witness for C3, the scenario of the spec: a nil return with only bob set
to a mailbox full error rejects bob with that error and accepts carol. -/
theorem fallbackOutcome_witness :
    recipientOutcome scenarioExplicit none "carol" = none ∧
    recipientOutcome scenarioExplicit none "bob"
      = some (GoError.errorString "mailbox full") :=
  fallbackOutcome scenarioExplicit none "carol" "bob"
    (some (GoError.errorString "mailbox full")) (by decide) (by decide)

/-- C7: in the trace of a compliant LMTPData call, every SetStatus event
strictly precedes the return event, and no event at all follows the return —
SetStatus is never invoked after LMTPData has returned. -/
theorem noSetStatusAfterReturn (recipients : List String)
    (explicit : String → Option (Option GoError)) (ret : Option GoError)
    (j : Nat) (a : String) (e : Option GoError)
    (h : (lmtpTrace recipients explicit ret).get? j
      = some (LMTPEvent.setStatus a e)) :
    ∃ i, (lmtpTrace recipients explicit ret).get? i
        = some (LMTPEvent.returned ret) ∧
      j < i ∧
      ∀ k, i < k → (lmtpTrace recipients explicit ret).get? k = none := by
  refine ⟨((lmtpStatusCalls recipients explicit).map
      (fun c => LMTPEvent.setStatus c.1 c.2)).length, ?_, ?_, ?_⟩
  · exact List.get?_concat_length _ _
  · rcases Nat.lt_or_ge j ((lmtpStatusCalls recipients explicit).map
        (fun c => LMTPEvent.setStatus c.1 c.2)).length with hj | hj
    · exact hj
    · exfalso
      unfold lmtpTrace at h
      rw [List.get?_append_right hj] at h
      cases hd : j - ((lmtpStatusCalls recipients explicit).map
          (fun c => LMTPEvent.setStatus c.1 c.2)).length with
      | zero =>
        rw [hd] at h
        simp at h
      | succ m =>
        rw [hd] at h
        simp at h
  · intro k hk
    unfold lmtpTrace
    rw [List.get?_append_right (Nat.le_of_lt hk)]
    cases hd : k - ((lmtpStatusCalls recipients explicit).map
        (fun c => LMTPEvent.setStatus c.1 c.2)).length with
    | zero => exact absurd hd (by omega)
    | succ m => rfl

/-- Witness for C7 at a concrete trace: the report for bob at position 0
precedes the return event, after which the trace holds nothing. -/
theorem noSetStatusAfterReturn_witness :
    ∃ i, (lmtpTrace ["bob"] (fun _ => some none) none).get? i
        = some (LMTPEvent.returned none) ∧
      0 < i ∧
      ∀ k, i < k → (lmtpTrace ["bob"] (fun _ => some none) none).get? k = none :=
  noSetStatusAfterReturn ["bob"] (fun _ => some none) none 0 "bob" none rfl

/-- C8: the body stream consumption of Data and of LMTPData is synchronous —
when the call succeeds the stream has been fully drained by the time it
returns, and on a read failure consumption stopped at or before the end of
the data; the stream state the call returns is final. -/
theorem bodyStreamDrainedOnReturn (r : BodyStream) (failAt : Option Nat) :
    ((consumeBody r failAt).1 = none →
      streamRemaining (consumeBody r failAt).2 = 0) ∧
    (consumeBody r failAt).2.pos ≤ r.data.length := by
  cases failAt with
  | none => exact ⟨fun _ => Nat.sub_self _, Nat.le_refl _⟩
  | some k =>
    exact ⟨fun hc => absurd hc (by simp [consumeBody]), Nat.min_le_right _ _⟩

/-- C9 (counterexample): a MailOptions value whose declared size is negative
is representable, because the Size field has the signed Go type int — so the
data model does not make the size non-negative. -/
theorem declaredSizeNegativeCounterexample : negSizeOpts.Size < 0 := by decide

/-- C9 (amended): MailOptions.Size is a signed integer field that the data
model does not constrain to be non-negative, and the value zero means the
client declared no size rather than an empty body. -/
theorem sizeZeroMeansUndeclared (o : MailOptions) (h : o.Size = 0) :
    sizeDeclared o = false := by
  simp [sizeDeclared, h]

/-- Witness for C9 (amended): the zero valued options declare no size. -/
theorem sizeZeroMeansUndeclared_witness : sizeDeclared mailOptionsZero = false :=
  sizeZeroMeansUndeclared mailOptionsZero rfl

/-- C10: the options argument of Session.Mail is a nullable pointer — the
nil pointer (none) is a value of the argument type distinct from a pointer
to the zero valued MailOptions, and no MailOptions value can be read out of
the nil pointer, so every field access must be guarded by a nil check. -/
theorem mailOptionsArgNullable :
    (none : Option MailOptions) ≠ some mailOptionsZero ∧
    (¬ ∃ m : MailOptions, (none : Option MailOptions) = some m) ∧
    (none : Option MailOptions).isSome = false := by
  refine ⟨fun h => Option.noConfusion h, ?_, rfl⟩
  rintro ⟨m, hm⟩
  exact Option.noConfusion hm

end GoSmtp
